import Mathlib

/-!
A verification development for the `nasimport` media importer
(package `nasimporter`, file `nasimporter.go`, plus `main.go`).

The Go code is shallowly embedded: pure helpers become Lean functions,
collaborator calls (TheTVDB, IMDb, the filesystem, the remux tools) become
explicit environment records of functions, and side effects (prints, renames,
directory creation, tool invocations) are recorded as explicit effect lists.
Machine integers (`uint64`, `int`) are modelled as `Nat`/`Int`; the only
overflow-relevant operation, `strconv.ParseUint(_, 10, 64)`, checks its value
against `2 ^ 64` exactly as the Go parser enforces the 64-bit range.
-/

namespace Nasimport

/-! ## Decimal formatting and parsing

Models of Go's `%d`/`%v` integer formatting and of `strconv.ParseUint(s, 10, 64)`.
`natToDecAux` uses a fuel argument (`n + 1` is always enough fuel, since the
number of decimal digits of `n` is at most `n + 1`). -/

/-- The decimal digit character for `d` (total; callers keep `d < 10`). -/
def digitChar (d : Nat) : Char :=
  match d with
  | 0 => '0' | 1 => '1' | 2 => '2' | 3 => '3' | 4 => '4'
  | 5 => '5' | 6 => '6' | 7 => '7' | 8 => '8' | _ => '9'

/-- Numeric value of a decimal digit character. -/
def digitVal (c : Char) : Nat := c.toNat - 48

def natToDecAux (fuel n : Nat) : List Char :=
  match fuel with
  | 0 => []
  | fuel + 1 =>
    if n < 10 then [digitChar n]
    else natToDecAux fuel (n / 10) ++ [digitChar (n % 10)]

def natToDecDigits (n : Nat) : List Char := natToDecAux (n + 1) n

/-- Decimal rendering of a natural number: the model of Go's `%d`/`%v` for
unsigned integers. -/
def natToDec (n : Nat) : String := ⟨natToDecDigits n⟩

/-- The accumulated value of a decimal digit string, as Go's `strconv`
accumulates it. -/
def parseUintVal (cs : List Char) : Nat := cs.foldl (fun a c => a * 10 + digitVal c) 0

/-- Model of `strconv.ParseUint(s, 10, 64)`: succeeds exactly on a non-empty
all-digit string whose value fits in 64 bits. -/
def parseUint (s : String) : Option Nat :=
  if s.data ≠ [] ∧ s.data.all Char.isDigit ∧ parseUintVal s.data < 2 ^ 64
  then some (parseUintVal s.data)
  else none

/-- Model of Go's `fmt.Sprintf("%02d", n)` for an unsigned value: zero-pad to
width 2, print natural width beyond that. -/
def format02 (n : Nat) : String := if n < 10 then "0" ++ natToDec n else natToDec n

/-! ## String helpers shared by the importer -/

/-- ASCII lower-casing, the model of `strings.ToLower` on the ASCII genre and
path strings the importer handles. -/
def strToLower (s : String) : String := ⟨s.data.map Char.toLower⟩

/-- Whitespace recognised by Go's `\s` and `strings.TrimSpace` (ASCII range). -/
def isSpaceChar (c : Char) : Bool :=
  c = ' ' || c = '\t' || c = '\n' || c = '\r' || c = '\x0b' || c = '\x0c'

/-- Model of `strings.TrimSpace`. -/
def trimSpace (s : String) : String :=
  ⟨((s.data.dropWhile isSpaceChar).reverse.dropWhile isSpaceChar).reverse⟩

/-- The separator class of `wordRegex = [^\.\-_\+\s]+`: period, hyphen,
underscore, plus, whitespace. -/
def isWordSep (c : Char) : Bool :=
  c = '.' || c = '-' || c = '_' || c = '+' || isSpaceChar c

/-- Model of `wordRegex.FindAllString(s, -1)`: the maximal runs of
non-separator characters. -/
def findWords (s : String) : List String :=
  ((s.data.splitOnP isWordSep).filter (fun w => w ≠ [])).map (fun w => (⟨w⟩ : String))

/-- Model of `strings.Join(words, " ")`. -/
def joinWords (ws : List String) : String := String.intercalate " " ws

/-- Model of `strings.Replace(s, "/", "∕", -1)` (ASCII slash to U+2215
division slash) used on file-name components. -/
def replaceSlash (s : String) : String :=
  ⟨s.data.map (fun c => if c = '/' then '∕' else c)⟩

/-- Simplified model of `filepath.Dir` for slash-separated paths: everything
before the last slash (or `"."` when there is none). -/
def dirOf (p : String) : String :=
  let pre := ((p.data.reverse.dropWhile (fun c => c ≠ '/')).reverse)
  if pre = [] then "."
  else if pre.dropLast = [] then "/"
  else ⟨pre.dropLast⟩

/-- Model of `strings.HasSuffix(strings.ToLower(path), ".mkv")`. -/
def hasMkvSuffix (path : String) : Bool :=
  (".mkv".data.reverse).isPrefixOf (strToLower path).data.reverse

/-! ## Data model

`MediaSource` reproduces the Go enum and its `iota` ordinals — the tie-break
key of the ranking. Note the code's order: the remote catalog sources
(`TVTVDB` .. `MovieIMDB`) have lower ordinals than the local sources
(`TVLocal`, `DocumentaryLocal`), and there is no `MovieLocal`-style value;
ordinal 0 is `Unknown`. -/

inductive MediaSource
  | Unknown
  | TVTVDB
  | DocumentaryTVDB
  | DocumentaryIMDB
  | MovieIMDB
  | TVLocal
  | DocumentaryLocal
deriving DecidableEq, Repr

/-- The `iota` ordinal of each `MediaSource` constant; Go's `<` on the enum is
`<` on these ordinals. -/
def MediaSource.ord : MediaSource → Nat
  | .Unknown => 0
  | .TVTVDB => 1
  | .DocumentaryTVDB => 2
  | .DocumentaryIMDB => 3
  | .MovieIMDB => 4
  | .TVLocal => 5
  | .DocumentaryLocal => 6

/-- Whether a source is one of the local-library sources. -/
def MediaSource.isLocal : MediaSource → Bool
  | .TVLocal => true
  | .DocumentaryLocal => true
  | _ => false

/-- The fields of `tvdb.Episode` the importer reads. -/
structure Episode where
  EpisodeNumber : Nat
  EpisodeName : String
deriving DecidableEq, Repr

/-- The fields of `tvdb.Series` the importer reads. `Seasons` is `none` until
`GetDetail` has been called (Go's nil map). -/
structure Series where
  Id : Nat
  SeriesName : String
  Genre : List String
  Seasons : Option (List (Nat × List Episode)) := none
deriving DecidableEq, Repr

/-- The fields of `imdb.Title` the importer reads. `TitleType` is the Go field
`Type` (a Lean keyword). -/
structure Title where
  ID : String
  Name : String
  Year : Nat
  TitleType : String
  Genres : List String
deriving DecidableEq, Repr

/-- The tagged payload stored in `ScoreItem.data` (Go uses `interface{}`;
the type switch at import time distinguishes exactly these cases). -/
inductive MediaData
  | nilData
  | series (s : Series)
  | title (t : Title)
  | str (s : String)
deriving DecidableEq, Repr

/-- Go's `ScoreItem`. -/
structure ScoreItem where
  value : String
  words : List String := []
  score : Nat
  source : MediaSource := .Unknown
  data : MediaData := .nilData
deriving DecidableEq, Repr

/-- The resolved configuration values the core reads (`Config` in Go,
flattened). -/
structure Config where
  tvDir : String
  documentaryDir : String
  movieDir : String
  mkvmerge : String
  ffmpeg : String
  numVisibleResults : Nat
deriving DecidableEq, Repr

/-- A Go `error` value: either an `errors.New`/`fmt.Errorf` message built by
the importer, or an error value surfaced by an `os`/`strconv` call. -/
inductive GoError
  | msg (s : String)
  | osErr (s : String)
deriving DecidableEq, Repr

def GoError.render : GoError → String
  | .msg s => s
  | .osErr s => s

/-- The cache key type `CacheKey [2]string`. -/
abbrev CacheKey := String × String

/-- A classified filename's field map (`map[string]string` from the regex
cascade). -/
abbrev FieldMap := List (String × String)

/-- Two-valued Go map lookup `v, ok := fields[key]`. -/
def findField (fields : FieldMap) (key : String) : Option String :=
  (fields.find? (fun kv => kv.1 == key)).map (fun kv => kv.2)

/-- One-valued Go map lookup `fields[key]` (zero value `""` when absent). -/
def lookupField (fields : FieldMap) (key : String) : String :=
  (findField fields key).getD ""

/-! ## The ranking order (`ScoreItems.Less` and `sort.Sort`) -/

/-- `ScoreItems.Less`: score ascending is primary, the source ordinal breaks
ties. -/
def scoreItemsLess (i j : ScoreItem) : Bool :=
  if i.score ≠ j.score then i.score < j.score else i.source.ord < j.source.ord

/-- The non-strict order induced by `scoreItemsLess`; `sort.Sort` produces a
list sorted with respect to it. -/
def scoreItemsLE (i j : ScoreItem) : Bool := !(scoreItemsLess j i)

/-- Model of `sort.Sort(absoluteOrder)`: a comparison sort for
`ScoreItems.Less` (Go's sort is unstable; any comparison sort for the same
order is observationally equal up to the order of fully-equal keys). -/
def sortScoreItems (l : List ScoreItem) : List ScoreItem := l.mergeSort scoreItemsLE

/-! ## Levenshtein scoring (`getLevenshteinDistance`, `getLevenshteinOrder`) -/

/-- `getLevenshteinDistance`: tokenize both strings, rejoin with single
spaces, lower-case, then Levenshtein distance (unit costs). -/
def getLevenshteinDistance (string1 string2 : String) : Nat :=
  levenshtein Levenshtein.defaultCost
    (strToLower (joinWords (findWords string1))).data
    (strToLower (joinWords (findWords string2))).data

/-- `getLevenshteinOrder`: score every candidate against the target and sort. -/
def getLevenshteinOrder (candidates : List String) (target : String) : List ScoreItem :=
  sortScoreItems (candidates.map (fun candidate =>
    { value := candidate
      words := findWords candidate
      score := getLevenshteinDistance target candidate }))

/-! ## Genre filtering (the filter blocks of `detectTvdbSeries` and
`detectIMDBMovie`) -/

/-- The genre filter of `detectTvdbSeries` (an empty filter keeps everything;
a leading `'!'` flips `negate`; an entry is kept when some genre `g` of the
entry satisfies `(lower(filter) == lower(g)) != negate`). -/
def filterSeriesByGenre (genre : String) (seriesList : List Series) : List Series :=
  if genre == "" then seriesList
  else
    let negate := genre.data.head? == some '!'
    let g := if negate then (⟨genre.data.tail⟩ : String) else genre
    seriesList.filter (fun series =>
      series.Genre.any (fun seriesGenre => (strToLower g == strToLower seriesGenre) != negate))

/-- The genre filter of `detectIMDBMovie`: each candidate's detail record is
fetched with `imdb.NewTitle` first (a fetch error drops the candidate), then
the same keep rule runs over the detail record's genres. -/
def filterTitlesByGenre (newTitle : String → Option Title) (genre : String)
    (titles : List Title) : List Title :=
  if genre == "" then titles
  else
    let negate := genre.data.head? == some '!'
    let g := if negate then (⟨genre.data.tail⟩ : String) else genre
    titles.filterMap (fun t0 =>
      match newTitle t0.ID with
      | none => none
      | some t =>
        if t.Genres.any (fun movieGenre => (strToLower g == strToLower movieGenre) != negate)
        then some t else none)

/-! ## `detectTvdbSeries` (series lookup) -/

/-- The remote collaborators `detectTvdbSeries` calls. -/
structure TvdbCollab where
  searchSeries : String → Nat → List Series
  searchTitle : String → List Title
  getSeriesByIMDBId : String → Option Series

/-- The series-recovery loop of `detectTvdbSeries`: walk the raw IMDb search
results, keep `"TV Series"`/`"TV Mini-Series"` entries, deduplicate by IMDb id
(`idMap`) and against the already collected series list, resolve via
`GetSeriesByIMDBId`, and stop after appending the 10th extra series. -/
def tvSeriesExtras (collab : TvdbCollab) :
    List Title → List String → List Series → Nat → List Series
  | [], _, _, _ => []
  | raw :: rest, idMap, existing, count =>
    if raw.TitleType == "TV Series" || raw.TitleType == "TV Mini-Series" then
      if raw.ID ∈ idMap then tvSeriesExtras collab rest idMap existing count
      else
        match collab.getSeriesByIMDBId raw.ID with
        | none => tvSeriesExtras collab rest (raw.ID :: idMap) existing count
        | some series =>
          if existing.any (fun e => e.Id == series.Id) then
            tvSeriesExtras collab rest (raw.ID :: idMap) existing count
          else if count + 1 ≥ 10 then [series]
          else series :: tvSeriesExtras collab rest (raw.ID :: idMap) (existing ++ [series]) (count + 1)
    else tvSeriesExtras collab rest idMap existing count

/-- `detectTvdbSeries`: cached series lookup by (tokenized title, genre
filter). -/
def detectTvdbSeries (collab : TvdbCollab) (numVisibleResults : Nat)
    (tvdbCache : List (CacheKey × List Series)) (name genre : String) :
    List Series × List (CacheKey × List Series) :=
  let probableTitle := joinWords (findWords name)
  let cacheKey : CacheKey := (probableTitle, genre)
  match tvdbCache.find? (fun kv => kv.1 == cacheKey) with
  | some kv => (kv.2, tvdbCache)
  | none =>
    let seriesList := collab.searchSeries probableTitle numVisibleResults
    let seriesList := seriesList ++
      tvSeriesExtras collab (collab.searchTitle probableTitle) [] seriesList 0
    let seriesList := filterSeriesByGenre genre seriesList
    (seriesList, (cacheKey, seriesList) :: tvdbCache)

/-! ## `detectIMDBMovie` (title lookup) -/

/-- The remote collaborators `detectIMDBMovie` calls. -/
structure IMDBCollab where
  searchTitle : String → List Title
  newTitle : String → Option Title

/-- The type tags the title-lookup loop accepts: untyped, `"Video"`,
`"TV Movie"`. -/
def movieTypeAllowed (t : String) : Bool := t == "" || t == "Video" || t == "TV Movie"

/-- The collection loop of `detectIMDBMovie`: skip disallowed type tags,
deduplicate by IMDb id (`idMap`), and stop after appending the 10th result. -/
def movieDedupCap : List Title → List String → Nat → List Title
  | [], _, _ => []
  | raw :: rest, idMap, count =>
    if !(movieTypeAllowed raw.TitleType) then movieDedupCap rest idMap count
    else if raw.ID ∈ idMap then movieDedupCap rest idMap count
    else if count + 1 ≥ 10 then [raw]
    else raw :: movieDedupCap rest (raw.ID :: idMap) (count + 1)

/-- `detectIMDBMovie`: cached title lookup by (tokenized title, genre
filter). -/
def detectIMDBMovie (collab : IMDBCollab) (imdbCache : List (CacheKey × List Title))
    (name genre : String) : List Title × List (CacheKey × List Title) :=
  let probableTitle := joinWords (findWords name)
  let cacheKey : CacheKey := (probableTitle, genre)
  match imdbCache.find? (fun kv => kv.1 == cacheKey) with
  | some kv => (kv.2, imdbCache)
  | none =>
    let results := movieDedupCap (collab.searchTitle probableTitle) [] 0
    let results := filterTitlesByGenre collab.newTitle genre results
    (results, (cacheKey, results) :: imdbCache)

/-! ## Episode-name lookup (`GetTVDBEpisodeName`) -/

/-- The lazy season/episode detail fetch (`series.GetDetail()`), keyed by the
series id. -/
structure SeriesDetailCollab where
  getDetail : Nat → Option (List (Nat × List Episode))

/-- `GetTVDBEpisodeName`: fetch the season map if absent, fail when the season
is missing, take the first episode with the requested number, fail when the
resulting name is empty. -/
def GetTVDBEpisodeName (collab : SeriesDetailCollab) (series : Series)
    (seasonNum episodeNum : Nat) : Except GoError String :=
  let seasonsFetched : Option (List (Nat × List Episode)) :=
    match series.Seasons with
    | some seasons => some seasons
    | none => collab.getDetail series.Id
  match seasonsFetched with
  | none => .error (.osErr "GetDetail failed")
  | some seasons =>
    match (seasons.find? (fun p => p.1 == seasonNum)).map (fun p => p.2) with
    | none => .error (.msg ("Season " ++ natToDec seasonNum ++ " doesn't exist on TheTVDB."))
    | some season =>
      let episodeName :=
        ((season.find? (fun ep => ep.EpisodeNumber == episodeNum)).map
          (fun ep => ep.EpisodeName)).getD ""
      if episodeName == "" then
        .error (.msg ("Episode " ++ natToDec episodeNum ++ " doesn't exist on TheTVDB."))
      else .ok episodeName

/-! ## Materialization (`importMKV` and the remux tool chain)

Effects record the externally visible actions; the filesystem is a list of
existing file paths. A `ToolEnv` fixes the outcome of each external call:
`none` means success, `some s` failure with captured output `s`. The
`os.Stat(outPath)` probe is modelled by membership in the path list (a stat
failure other than not-exists is not modelled). -/

inductive Effect
  | println (s : String)
  | mkdirAll (dir : String)
  | rename (src dst : String)
  | runMKVMerge (src dst : String)
  | runFFMPEG (src dst : String)
deriving DecidableEq, Repr

/-- Whether an effect touches the filesystem or invokes a tool (everything but
a console print). -/
def Effect.isMaterialization : Effect → Bool
  | .println _ => false
  | _ => true

structure ToolEnv where
  mkdirFail : Option String := none
  renameFail : Option String := none
  mkvmergeFail : Option String := none
  ffmpegFail : Option String := none
deriving DecidableEq, Repr

/-- `importMKVUsingMKVMerge`: run the primary remux tool; a non-zero exit
becomes an error carrying the tool path and trimmed standard output. -/
def importMKVUsingMKVMerge (config : Config) (env : ToolEnv) (path outPath : String) :
    List Effect × Option GoError :=
  ([.runMKVMerge path outPath],
    match env.mkvmergeFail with
    | none => none
    | some stdoutText =>
        some (.msg (config.mkvmerge ++ " exited with error: " ++ (trimSpace stdoutText))))

/-- `importMKVUsingFFMPEG`: run the secondary remux tool (`-fflags +genpts`,
stream copy); a non-zero exit becomes an error carrying the tool path and
trimmed standard error. -/
def importMKVUsingFFMPEG (config : Config) (env : ToolEnv) (path outPath : String) :
    List Effect × Option GoError :=
  ([.runFFMPEG path outPath],
    match env.ffmpegFail with
    | none => none
    | some stderrText =>
        some (.msg (config.ffmpeg ++ " exited with error: " ++ (trimSpace stderrText))))

structure MuxResult where
  fs : List String
  effects : List Effect
  err : Option GoError
deriving DecidableEq, Repr

/-- `importMKV`: return success untouched when the destination exists; create
the destination directory; move directly when the source is already matroska;
otherwise try mkvmerge, and on its failure print it and try ffmpeg; when both
fail, print and return the ffmpeg error. -/
def importMKV (config : Config) (env : ToolEnv) (fs : List String) (path outPath : String) :
    MuxResult :=
  if fs.contains outPath then
    { fs := fs, effects := [], err := none }
  else
    match env.mkdirFail with
    | some e => { fs := fs, effects := [.mkdirAll (dirOf outPath)], err := some (.osErr e) }
    | none =>
      if hasMkvSuffix path then
        match env.renameFail with
        | some e =>
            { fs := fs
              effects := [.mkdirAll (dirOf outPath), .rename path outPath, .println e]
              err := some (.osErr e) }
        | none =>
            { fs := (fs.erase path) ++ [outPath]
              effects := [.mkdirAll (dirOf outPath), .rename path outPath]
              err := none }
      else
        match importMKVUsingMKVMerge config env path outPath with
        | (eff1, none) =>
            { fs := fs ++ [outPath]
              effects := .mkdirAll (dirOf outPath) :: eff1
              err := none }
        | (eff1, some e1) =>
          match importMKVUsingFFMPEG config env path outPath with
          | (eff2, none) =>
              { fs := fs ++ [outPath]
                effects := .mkdirAll (dirOf outPath) :: eff1 ++ [.println e1.render] ++ eff2
                err := none }
          | (eff2, some e2) =>
              { fs := fs
                effects := .mkdirAll (dirOf outPath) :: eff1 ++ [.println e1.render] ++ eff2
                  ++ [.println e2.render]
                err := some e2 }

/-! ## Destination paths and the per-kind import steps -/

/-- The destination-path computation of `importTV`: season and episode must
parse; a series payload resolves the episode name (failures propagate); a
string payload is a bare local series name; any other payload leaves both
names empty (Go's type switch has no case for it). -/
def importTVOutPath (config : Config) (collab : SeriesDetailCollab)
    (fileFields : FieldMap) (data : MediaData) : Except GoError String :=
  match parseUint (lookupField fileFields "season") with
  | none => .error (.osErr "invalid season syntax")
  | some seasonNum =>
  match parseUint (lookupField fileFields "episode") with
  | none => .error (.osErr "invalid episode syntax")
  | some episodeNum =>
  let namesE : Except GoError (String × String) :=
    match data with
    | .series series =>
      match GetTVDBEpisodeName collab series seasonNum episodeNum with
      | .error e => .error e
      | .ok en => .ok (series.SeriesName, en)
    | .str s => .ok (s, "")
    | _ => .ok ("", "")
  match namesE with
  | .error e => .error e
  | .ok (sn, en) =>
    let seriesName := replaceSlash sn
    let episodeName := replaceSlash en
    let episodeName := if episodeName ≠ "" then " - " ++ episodeName else episodeName
    .ok (config.tvDir ++ "/" ++ seriesName ++ "/Season " ++ format02 seasonNum ++ "/" ++
      seriesName ++ " S" ++ format02 seasonNum ++ "E" ++ format02 episodeNum ++
      episodeName ++ ".mkv")

/-- `importTV`: compute the destination path, then materialize with
`importMKV`. -/
def importTV (config : Config) (collab : SeriesDetailCollab) (env : ToolEnv)
    (fs : List String) (path : String) (fileFields : FieldMap) (data : MediaData) : MuxResult :=
  match importTVOutPath config collab fileFields data with
  | .error e => { fs := fs, effects := [], err := some e }
  | .ok outPath => importMKV config env fs path outPath

/-- `importDocumentary`: season/episode/year are optional; three path shapes
by payload. Go's named return `err` is reused (not shadowed) by the three
top-level `, err :=` parses, so after them it holds the YEAR parse result:
the series branch overwrites it (error `return`s happen before the print;
success leaves `nil`), while the title branch, the string branch and the
no-case payload never reassign it and return the leftover year-parse error.
The function only prints the computed destination path — the `importMKV`
call below the print is commented out in the source, so no filesystem or
tool effect is produced. -/
def importDocumentary (config : Config) (collab : SeriesDetailCollab)
    (fileFields : FieldMap) (data : MediaData) : List Effect × Option GoError :=
  let seasonNum := (parseUint (lookupField fileFields "season")).getD 1
  let hasSeasonAndEpisode := (parseUint (lookupField fileFields "episode")).isSome
  let episodeNum := (parseUint (lookupField fileFields "episode")).getD 0
  let hasYear := (parseUint (lookupField fileFields "year")).isSome
  let year := (parseUint (lookupField fileFields "year")).getD 0
  let yearErr : Option GoError :=
    if hasYear then none
    else some (.osErr ("strconv.ParseUint: parsing " ++ lookupField fileFields "year"
      ++ ": invalid syntax"))
  match data with
  | .series series =>
    if !hasSeasonAndEpisode then
      ([], some (.msg "Documentary found on TheTVDB, but no detected season/episode number."))
    else
      match GetTVDBEpisodeName collab series seasonNum episodeNum with
      | .error e => ([], some e)
      | .ok en =>
        let seriesName := replaceSlash series.SeriesName
        let episodeName := replaceSlash en
        let episodeName := if episodeName ≠ "" then " - " ++ episodeName else episodeName
        ([.println (config.documentaryDir ++ "/" ++ seriesName ++ "/Season " ++
          format02 seasonNum ++ "/" ++ seriesName ++ " S" ++ format02 seasonNum ++ "E" ++
          format02 episodeNum ++ episodeName ++ ".mkv")], none)
  | .title title =>
    ([.println (config.documentaryDir ++ "/" ++ title.Name ++ " (" ++ natToDec title.Year ++
      ").mkv")], yearErr)
  | .str s =>
    if hasSeasonAndEpisode then
      let seriesName := replaceSlash s
      ([.println (config.documentaryDir ++ "/" ++ seriesName ++ "/Season " ++
        format02 seasonNum ++ "/" ++ seriesName ++ " S" ++ format02 seasonNum ++ "E" ++
        format02 episodeNum ++ ".mkv")], yearErr)
    else if hasYear then
      ([.println (config.documentaryDir ++ "/" ++ s ++ " (" ++ natToDec year ++ ").mkv")],
        yearErr)
    else
      ([.println (config.documentaryDir ++ "/" ++ s ++ ".mkv")], yearErr)
  | .nilData => ([.println ""], yearErr)

/-- `importMovie`: requires a title payload; path `Name (Year).mkv`; then
materializes with `importMKV`. -/
def importMovie (config : Config) (env : ToolEnv) (fs : List String) (path : String)
    (data : MediaData) : MuxResult :=
  match data with
  | .title movie =>
    importMKV config env fs path
      (config.movieDir ++ "/" ++ movie.Name ++ " (" ++ natToDec movie.Year ++ ").mkv")
  | _ => { fs := fs, effects := [], err := some (.msg "Unable to import movie, invalid data type.") }

/-! ## The Import pipeline: collaborator queries, merged ranking, selection -/

/-- The collaborator endpoints the Import pipeline consults. -/
structure ImportEnv where
  existingTVShowDirs : List String
  existingDocumentaryDirs : List String
  tvdb : TvdbCollab
  imdb : IMDBCollab

/-- Go's query-name construction for the movie kind: append `" (year)"` to the
name when a year was classified. -/
def movieSearchName (movieFields : FieldMap) : String :=
  match findField movieFields "year" with
  | some year => lookupField movieFields "name" ++ " (" ++ year ++ ")"
  | none => lookupField movieFields "name"

/-- The documentary branch of `Import` queries the TVDB series catalog exactly
when `strconv.ParseUint(documentaryFields["episode"], 10, 64)` succeeds (the
season field is not consulted). -/
def documentaryTvdbQueried (documentaryFields : FieldMap) : Bool :=
  (parseUint (lookupField documentaryFields "episode")).isSome

/-- A remote catalog call made by one run of `Import`. -/
inductive CatalogQuery
  | tvdbSeries (name genre : String)
  | imdbTitle (name genre : String)
deriving DecidableEq, Repr

/-- The remote catalog calls `Import` makes, given which kinds classified
(`none` = that kind's classification missed). Caches are empty at the start of
a run; within one run the three call keys are pairwise distinct, so caching
does not suppress any of these calls. -/
def importCatalogQueries (tvShowFields documentaryFields movieFields : Option FieldMap) :
    List CatalogQuery :=
  (match tvShowFields with
    | some f => [.tvdbSeries (lookupField f "name") ""]
    | none => [])
  ++ (match documentaryFields with
    | some f =>
      (if documentaryTvdbQueried f then [.tvdbSeries (lookupField f "name") "documentary"]
       else [])
      ++ [.imdbTitle (lookupField f "name") "documentary"]
    | none => [])
  ++ (match movieFields with
    | some f => [.imdbTitle (movieSearchName f) ""]
    | none => [])

/-- The TV-kind remote score: the extracted title (suffixed with the year when
one was classified) against the series name. -/
def seriesScoreWithYear (fields : FieldMap) (s : Series) : Nat :=
  match findField fields "year" with
  | some year =>
    getLevenshteinDistance (lookupField fields "name" ++ " (" ++ year ++ ")") s.SeriesName
  | none => getLevenshteinDistance (lookupField fields "name") s.SeriesName

/-- The title-kind remote score: when a year was classified, both sides carry
`" (year)"`. -/
def titleScoreWithYear (fields : FieldMap) (t : Title) : Nat :=
  match findField fields "year" with
  | some year =>
    getLevenshteinDistance (lookupField fields "name" ++ " (" ++ year ++ ")")
      (t.Name ++ " (" ++ natToDec t.Year ++ ")")
  | none => getLevenshteinDistance (lookupField fields "name") t.Name

/-- The documentary TVDB section of `absoluteOrder` (score without year
suffix). -/
def docTVDBItems (documentaryFields : FieldMap) (seriesResults : List Series) :
    List ScoreItem :=
  seriesResults.map (fun s =>
    { value := s.SeriesName
      score := getLevenshteinDistance (lookupField documentaryFields "name") s.SeriesName
      source := .DocumentaryTVDB
      data := .series s })

/-- The merged, globally sorted candidate list `absoluteOrder` built by
`Import`: the six per-kind/per-source sections concatenated, then sorted. -/
def absoluteOrderOf (env : ImportEnv) (numVisibleResults : Nat)
    (tvShowFields documentaryFields movieFields : Option FieldMap) : List ScoreItem :=
  let tvLocal := match tvShowFields with
    | some f => (getLevenshteinOrder env.existingTVShowDirs (lookupField f "name")).map
        (fun it => { it with source := .TVLocal, data := .str it.value })
    | none => []
  let tvTVDB := match tvShowFields with
    | some f =>
      ((detectTvdbSeries env.tvdb numVisibleResults [] (lookupField f "name") "").1).map
        (fun s => { value := s.SeriesName, score := seriesScoreWithYear f s,
                    source := .TVTVDB, data := .series s })
    | none => []
  let docLocal := match documentaryFields with
    | some f => (getLevenshteinOrder env.existingDocumentaryDirs (lookupField f "name")).map
        (fun it => { it with source := .DocumentaryLocal, data := .str it.value })
    | none => []
  let docTVDB := match documentaryFields with
    | some f =>
      if documentaryTvdbQueried f then
        docTVDBItems f
          ((detectTvdbSeries env.tvdb numVisibleResults [] (lookupField f "name") "documentary").1)
      else []
    | none => []
  let docIMDB := match documentaryFields with
    | some f =>
      ((detectIMDBMovie env.imdb [] (lookupField f "name") "documentary").1).map
        (fun t => { value := t.Name, score := titleScoreWithYear f t,
                    source := .DocumentaryIMDB, data := .title t })
    | none => []
  let movIMDB := match movieFields with
    | some f =>
      ((detectIMDBMovie env.imdb [] (movieSearchName f) "").1).map
        (fun t => { value := t.Name, score := titleScoreWithYear f t,
                    source := .MovieIMDB, data := .title t })
    | none => []
  sortScoreItems (tvLocal ++ tvTVDB ++ docLocal ++ docTVDB ++ docIMDB ++ movIMDB)

/-! ## Interactive selection and the final indexing step -/

/-- One round of `fmt.Scanf("%d", &matchId)`: either a scan error or a parsed
integer. -/
inductive InputAttempt
  | scanErr
  | num (n : Int)
deriving DecidableEq, Repr

/-- The accept test of the selection loop: reject on scan error, on
`matchId > NumVisibleResults`, and on `matchId < 1`. -/
def acceptsInput (numVisibleResults : Nat) (a : InputAttempt) : Option Int :=
  match a with
  | .scanErr => none
  | .num n => if n > (numVisibleResults : Int) || n < 1 then none else some n

/-- The interactive selection loop over a stream of input attempts: reprompt
(skip) on every rejected attempt, return the first accepted id (`none` = the
stream ran out while the loop was still reprompting). -/
def selectionLoop (numVisibleResults : Nat) : List InputAttempt → Option Int
  | [] => none
  | a :: rest =>
    match acceptsInput numVisibleResults a with
    | some n => some n
    | none => selectionLoop numVisibleResults rest

/-- The indexing step `match := absoluteOrder[matchId - 1]`: `none` models the
out-of-range slice-index panic. -/
def selectMatch (absoluteOrder : List ScoreItem) (matchId : Int) : Option ScoreItem :=
  if matchId < 1 then none
  else absoluteOrder.get? (matchId - 1).toNat

/-- How one run of `Import` ends after an id was chosen. -/
inductive ImportOutcome
  | panic
  | errReturn (e : GoError)
  | completed
deriving DecidableEq, Repr

/-- The tail of `Import`: index the merged list (an out-of-range index panics,
it never becomes an error return), then dispatch on the chosen item's source
(the dispatch abstracts the `importTV`/`importDocumentary`/`importMovie`
calls). -/
def importFinish (absoluteOrder : List ScoreItem) (matchId : Int)
    (dispatch : ScoreItem → Option GoError) : ImportOutcome :=
  match selectMatch absoluteOrder matchId with
  | none => .panic
  | some it =>
    match dispatch it with
    | some e => .errReturn e
    | none => .completed

/-! ## Spec-modelled comparison definition (title lookup, documentary caller)

Used only to compare the code's behaviour with the spec sentence "documentary
caller: any type, later filtered by genre". -/

/-- Modelled from the spec: the collection loop of the title lookup as the
spec describes it for the documentary caller — no type-tag restriction, just
deduplication by title identifier and the cap at 10. -/
def anyTypeDedupCap : List Title → List String → Nat → List Title
  | [], _, _ => []
  | raw :: rest, idMap, count =>
    if raw.ID ∈ idMap then anyTypeDedupCap rest idMap count
    else if count + 1 ≥ 10 then [raw]
    else raw :: anyTypeDedupCap rest (raw.ID :: idMap) (count + 1)

/-- Modelled from the spec: the whole documentary-caller title lookup as the
spec describes it — accept results of any type tag, deduplicate by title
identifier, cap at 10, and only then filter by genre. -/
def detectIMDBMovieDocSpec (collab : IMDBCollab) (name genre : String) : List Title :=
  let probableTitle := joinWords (findWords name)
  let results := anyTypeDedupCap (collab.searchTitle probableTitle) [] 0
  filterTitlesByGenre collab.newTitle genre results

/-! ## Supporting lemmas: decimal round-trip -/

theorem digitChar_facts : ∀ d, d < 10 → (digitChar d).isDigit = true ∧ digitVal (digitChar d) = d := by
  decide

theorem parseUintVal_append_one (cs : List Char) (c : Char) :
    parseUintVal (cs ++ [c]) = 10 * parseUintVal cs + digitVal c := by
  simp only [parseUintVal, List.foldl_append, List.foldl_cons, List.foldl_nil]
  omega

theorem natToDecAux_val (fuel : Nat) :
    ∀ n, n < fuel → parseUintVal (natToDecAux fuel n) = n := by
  induction fuel with
  | zero => omega
  | succ fuel ih =>
    intro n hn
    by_cases h : n < 10
    · simp [natToDecAux, h, parseUintVal, (digitChar_facts n h).2]
    · have hdiv : n / 10 < n := Nat.div_lt_self (by omega) (by omega)
      simp only [natToDecAux, if_neg h, parseUintVal_append_one]
      rw [ih (n / 10) (by omega)]
      have := (digitChar_facts (n % 10) (by omega)).2
      omega

theorem natToDecAux_digits (fuel : Nat) :
    ∀ n, n < fuel → ∀ c ∈ natToDecAux fuel n, c.isDigit = true := by
  induction fuel with
  | zero => omega
  | succ fuel ih =>
    intro n hn c hc
    by_cases h : n < 10
    · simp [natToDecAux, h] at hc
      subst hc
      exact (digitChar_facts n h).1
    · have hdiv : n / 10 < n := Nat.div_lt_self (by omega) (by omega)
      simp only [natToDecAux, if_neg h, List.mem_append, List.mem_singleton] at hc
      rcases hc with hc | hc
      · exact ih (n / 10) (by omega) c hc
      · subst hc
        exact (digitChar_facts (n % 10) (by omega)).1

theorem natToDecAux_ne_nil (fuel n : Nat) (hn : n < fuel) : natToDecAux fuel n ≠ [] := by
  cases fuel with
  | zero => omega
  | succ fuel =>
    by_cases h : n < 10
    · simp [natToDecAux, h]
    · simp [natToDecAux, h]

theorem parseUint_natToDec (n : Nat) (h : n < 2 ^ 64) : parseUint (natToDec n) = some n := by
  have hval := natToDecAux_val (n + 1) n (by omega)
  have hdig := natToDecAux_digits (n + 1) n (by omega)
  have hne := natToDecAux_ne_nil (n + 1) n (by omega)
  simp only [parseUint, natToDec, natToDecDigits]
  rw [if_pos]
  · rw [hval]
  · refine ⟨hne, ?_, ?_⟩
    · rw [List.all_eq_true]
      exact fun c hc => hdig c hc
    · rw [hval]
      exact h

theorem parseUint_format02 (n : Nat) (h : n < 2 ^ 64) : parseUint (format02 n) = some n := by
  by_cases h10 : n < 10
  · have hval := natToDecAux_val (n + 1) n (by omega)
    have hdig := natToDecAux_digits (n + 1) n (by omega)
    have hne := natToDecAux_ne_nil (n + 1) n (by omega)
    simp only [format02, if_pos h10, parseUint, natToDec, natToDecDigits]
    have hdata : ("0" ++ (⟨natToDecAux (n + 1) n⟩ : String)).data = '0' :: natToDecAux (n + 1) n := by
      simp [String.data_append]
    rw [hdata]
    have hv0 : parseUintVal ('0' :: natToDecAux (n + 1) n) = n := by
      simp only [parseUintVal, List.foldl_cons] at *
      simpa [digitVal] using hval
    rw [if_pos]
    · rw [hv0]
    · refine ⟨by simp, ?_, ?_⟩
      · rw [List.all_eq_true]
        intro c hc
        simp only [List.mem_cons] at hc
        rcases hc with hc | hc
        · subst hc
          decide
        · exact hdig c hc
      · rw [hv0]
        exact h
  · simp only [format02, if_neg h10]
    exact parseUint_natToDec n h

/-! ## Supporting lemmas: the ranking order -/

theorem scoreItemsLE_iff (i j : ScoreItem) :
    scoreItemsLE i j = true ↔
      (i.score < j.score ∨ (i.score = j.score ∧ i.source.ord ≤ j.source.ord)) := by
  simp only [scoreItemsLE, scoreItemsLess, Bool.not_eq_true']
  by_cases h : j.score = i.score <;> simp [h]
  all_goals omega

theorem scoreItemsLE_trans (a b c : ScoreItem) (hab : scoreItemsLE a b = true)
    (hbc : scoreItemsLE b c = true) : scoreItemsLE a c = true := by
  rw [scoreItemsLE_iff] at *
  omega

theorem scoreItemsLE_total (a b : ScoreItem) : (scoreItemsLE a b || scoreItemsLE b a) = true := by
  by_cases h : scoreItemsLE a b = true
  · simp [h]
  · have h' : ¬ (a.score < b.score ∨ (a.score = b.score ∧ a.source.ord ≤ b.source.ord)) := by
      rw [← scoreItemsLE_iff]
      exact h
    have hba : scoreItemsLE b a = true := by
      rw [scoreItemsLE_iff]
      omega
    simp [hba]

theorem sortScoreItems_perm (l : List ScoreItem) : (sortScoreItems l).Perm l :=
  List.mergeSort_perm l scoreItemsLE

theorem sortScoreItems_pairwise (l : List ScoreItem) :
    (sortScoreItems l).Pairwise (fun i j =>
      i.score < j.score ∨ (i.score = j.score ∧ i.source.ord ≤ j.source.ord)) := by
  have hs := @List.sorted_mergeSort ScoreItem scoreItemsLE scoreItemsLE_trans scoreItemsLE_total l
  exact hs.imp (fun h => (scoreItemsLE_iff _ _).mp h)

theorem mem_sortScoreItems (it : ScoreItem) (l : List ScoreItem) :
    it ∈ sortScoreItems l ↔ it ∈ l := by
  simp [sortScoreItems]

/-! ## Supporting lemmas: materialization -/

theorem importMKV_ok_mem (config : Config) (env : ToolEnv) (fs : List String)
    (path outPath : String) (h : (importMKV config env fs path outPath).err = none) :
    outPath ∈ (importMKV config env fs path outPath).fs := by
  obtain ⟨md, rn, mm, ff⟩ := env
  by_cases hc : fs.contains outPath <;>
    cases md <;> cases rn <;> cases mm <;> cases ff <;>
      by_cases hsuf : hasMkvSuffix path <;>
        simp_all [importMKV, importMKVUsingMKVMerge, importMKVUsingFFMPEG]

/-! ## Supporting lemmas: the title-lookup collection loop -/

theorem movieDedupCap_type_allowed (raw : List Title) :
    ∀ idMap count, ∀ t ∈ movieDedupCap raw idMap count, movieTypeAllowed t.TitleType = true := by
  induction raw with
  | nil => simp [movieDedupCap]
  | cons r rest ih =>
    intro idMap count t ht
    simp only [movieDedupCap] at ht
    by_cases h1 : movieTypeAllowed r.TitleType
    · rw [if_neg (by simp [h1])] at ht
      by_cases h2 : r.ID ∈ idMap
      · rw [if_pos h2] at ht
        exact ih idMap count t ht
      · rw [if_neg h2] at ht
        by_cases h3 : count + 1 ≥ 10
        · rw [if_pos h3] at ht
          rw [List.mem_singleton] at ht
          subst ht
          exact h1
        · rw [if_neg h3] at ht
          rcases List.mem_cons.mp ht with h | h
          · subst h
            exact h1
          · exact ih _ _ t h
    · rw [if_pos (by simp [h1])] at ht
      exact ih idMap count t ht

theorem movieDedupCap_nodup (raw : List Title) :
    ∀ idMap count, ((movieDedupCap raw idMap count).map (fun t => t.ID)).Nodup
      ∧ ∀ t ∈ movieDedupCap raw idMap count, t.ID ∉ idMap := by
  induction raw with
  | nil => simp [movieDedupCap]
  | cons r rest ih =>
    intro idMap count
    simp only [movieDedupCap]
    by_cases h1 : movieTypeAllowed r.TitleType
    · rw [if_neg (by simp [h1])]
      by_cases h2 : r.ID ∈ idMap
      · rw [if_pos h2]
        exact ih idMap count
      · rw [if_neg h2]
        by_cases h3 : count + 1 ≥ 10
        · rw [if_pos h3]
          constructor
          · simp
          · intro t ht
            rw [List.mem_singleton] at ht
            subst ht
            exact h2
        · rw [if_neg h3]
          obtain ⟨hnodup, hfresh⟩ := ih (r.ID :: idMap) (count + 1)
          constructor
          · rw [List.map_cons, List.nodup_cons]
            refine ⟨?_, hnodup⟩
            intro hmem
            rw [List.mem_map] at hmem
            obtain ⟨t, ht, hid⟩ := hmem
            exact hfresh t ht (by rw [hid]; exact List.mem_cons_self _ _)
          · intro t ht
            rcases List.mem_cons.mp ht with h | h
            · subst h
              exact h2
            · intro habs
              exact hfresh t h (List.mem_cons_of_mem _ habs)
    · rw [if_pos (by simp [h1])]
      exact ih idMap count

theorem movieDedupCap_length (raw : List Title) :
    ∀ idMap count, count < 10 → (movieDedupCap raw idMap count).length ≤ 10 - count := by
  induction raw with
  | nil => simp [movieDedupCap]
  | cons r rest ih =>
    intro idMap count hcount
    simp only [movieDedupCap]
    by_cases h1 : movieTypeAllowed r.TitleType
    · rw [if_neg (by simp [h1])]
      by_cases h2 : r.ID ∈ idMap
      · rw [if_pos h2]
        exact ih idMap count hcount
      · rw [if_neg h2]
        by_cases h3 : count + 1 ≥ 10
        · rw [if_pos h3]
          simp
          omega
        · rw [if_neg h3]
          have := ih (r.ID :: idMap) (count + 1) (by omega)
          simp only [List.length_cons]
          omega
    · rw [if_pos (by simp [h1])]
      exact ih idMap count hcount

/-! ## Supporting lemmas: genre filtering -/

theorem filterTitlesByGenre_length (newTitle : String → Option Title) (genre : String)
    (titles : List Title) :
    (filterTitlesByGenre newTitle genre titles).length ≤ titles.length := by
  by_cases hg : genre == ""
  · simp [filterTitlesByGenre, hg]
  · simp only [filterTitlesByGenre, hg, Bool.false_eq_true, if_false]
    exact List.length_filterMap_le _ _

theorem filterTitlesByGenre_ids_sublist (newTitle : String → Option Title) (genre : String)
    (titles : List Title) (hdetail : ∀ id t, newTitle id = some t → t.ID = id) :
    ((filterTitlesByGenre newTitle genre titles).map (fun t => t.ID)).Sublist
      (titles.map (fun t => t.ID)) := by
  by_cases hg : genre == ""
  · simp [filterTitlesByGenre, hg]
  · simp only [filterTitlesByGenre, hg, Bool.false_eq_true, if_false]
    induction titles with
    | nil => simp
    | cons t0 rest ih =>
      simp only [List.filterMap_cons, List.map_cons]
      cases hnt : newTitle t0.ID with
      | none => exact ih.cons _
      | some t =>
        have hid : t.ID = t0.ID := hdetail t0.ID t hnt
        by_cases hkeep : (t.Genres.any fun movieGenre =>
            (strToLower (if (genre.data.head? == some '!') = true then (⟨genre.data.tail⟩ : String) else genre)
              == strToLower movieGenre) != (genre.data.head? == some '!')) = true
        · simp only [hkeep, if_true, List.map_cons, hid]
          exact ih.cons₂ _
        · simp only [Bool.not_eq_true] at hkeep
          simp only [hkeep, Bool.false_eq_true, if_false]
          exact ih.cons _

/-! ## Supporting lemmas: selection loop and strings -/

theorem selectionLoop_skip (numVisibleResults : Nat) (bad rest : List InputAttempt)
    (hbad : ∀ a ∈ bad, acceptsInput numVisibleResults a = none) :
    selectionLoop numVisibleResults (bad ++ rest) = selectionLoop numVisibleResults rest := by
  induction bad with
  | nil => rfl
  | cons a bad ih =>
    have ha : acceptsInput numVisibleResults a = none := hbad a (List.mem_cons_self _ _)
    simp only [List.cons_append, selectionLoop, ha]
    exact ih (fun b hb => hbad b (List.mem_cons_of_mem _ hb))

theorem string_mk_data (s : String) : (⟨s.data⟩ : String) = s := rfl

theorem bang_append_data (rest : String) : ("!" ++ rest).data = '!' :: rest.data := by
  simp [String.data_append]

theorem bang_append_ne_empty (rest : String) : ("!" ++ rest) ≠ "" := by
  intro h
  have : ("!" ++ rest).data = ("" : String).data := by rw [h]
  rw [bang_append_data] at this
  simp at this

/-! ## Shared sample values for concrete evaluations -/

def sampleConfig : Config :=
  { tvDir := "/tv", documentaryDir := "/doc", movieDir := "/mov",
    mkvmerge := "mkvmerge", ffmpeg := "ffmpeg", numVisibleResults := 5 }

def emptyDetailCollab : SeriesDetailCollab := { getDetail := fun _ => none }

def emptyIMDBCollab : IMDBCollab := { searchTitle := fun _ => [], newTitle := fun _ => none }

def emptyImportEnv : ImportEnv :=
  { existingTVShowDirs := []
    existingDocumentaryDirs := []
    tvdb := { searchSeries := fun _ _ => [], searchTitle := fun _ => [],
              getSeriesByIMDBId := fun _ => none }
    imdb := { searchTitle := fun _ => [], newTitle := fun _ => none } }

/-- A remux environment in which both tools exit non-zero. -/
def failingToolEnv : ToolEnv :=
  { mkvmergeFail := some "container not supported", ffmpegFail := some "muxing failed" }

def sampleItemA : ScoreItem := { value := "A", score := 0, source := .TVTVDB }

def sampleItemB : ScoreItem := { value := "B", score := 1, source := .TVLocal }

/-- A `"TV Series"`-typed IMDb search hit carrying the Documentary genre. -/
def tvSeriesTitleSample : Title :=
  { ID := "tt1", Name := "Wild China", Year := 2008, TitleType := "TV Series",
    Genres := ["Documentary"] }

/-- A title-catalog collaborator returning `tvSeriesTitleSample` for every
search, with a consistent detail fetch. -/
def tvSeriesCollabSample : IMDBCollab :=
  { searchTitle := fun _ => [tvSeriesTitleSample]
    newTitle := fun id => if id == "tt1" then some tvSeriesTitleSample else none }

/-! ## Claim C1 -/

unseal List.merge List.mergeSort in
/-- C1 counterexample: two candidates with equal score, one from the local TV
library (`TVLocal`), one from the remote TV catalog (`TVTVDB`). The global
sort puts the REMOTE one first even when the local one was inserted first, so
the claim that local sources carry the lower ordinal (higher priority on
score ties) is false on the code's enum ordering. -/
theorem ranking_local_priority_counterexample :
    sortScoreItems
        [{ value := "The Wire", score := 0, source := .TVLocal, data := .str "The Wire" },
         { value := "The Wire", score := 0, source := .TVTVDB }]
      = [{ value := "The Wire", score := 0, source := .TVTVDB },
         { value := "The Wire", score := 0, source := .TVLocal, data := .str "The Wire" }]
    ∧ MediaSource.isLocal .TVLocal = true
    ∧ MediaSource.isLocal .TVTVDB = false
    ∧ MediaSource.ord .TVTVDB < MediaSource.ord .TVLocal := by
  decide

/-- C1 (amended): the merged list is globally sorted with score ascending as
the primary key and the fixed `MediaSource` ordinal ascending as the
deterministic tie-break, for every input list — so the tie-break never
depends on insertion or hash order; but the code's fixed ordinal order is
`Unknown(0) < TVTVDB(1) < DocumentaryTVDB(2) < DocumentaryIMDB(3) <
MovieIMDB(4) < TVLocal(5) < DocumentaryLocal(6)`: every remote catalog source
has a LOWER ordinal (wins score ties) than the local sources, and there is no
local-movie source. -/
theorem ranking_sorted_with_source_tiebreak (l : List ScoreItem) :
    (sortScoreItems l).Perm l
    ∧ (sortScoreItems l).Pairwise (fun i j =>
        i.score < j.score ∨ (i.score = j.score ∧ i.source.ord ≤ j.source.ord))
    ∧ MediaSource.ord .TVTVDB < MediaSource.ord .TVLocal
    ∧ MediaSource.ord .DocumentaryTVDB < MediaSource.ord .TVLocal
    ∧ MediaSource.ord .DocumentaryIMDB < MediaSource.ord .TVLocal
    ∧ MediaSource.ord .MovieIMDB < MediaSource.ord .TVLocal
    ∧ MediaSource.ord .TVTVDB < MediaSource.ord .DocumentaryLocal
    ∧ MediaSource.ord .DocumentaryTVDB < MediaSource.ord .DocumentaryLocal
    ∧ MediaSource.ord .DocumentaryIMDB < MediaSource.ord .DocumentaryLocal
    ∧ MediaSource.ord .MovieIMDB < MediaSource.ord .DocumentaryLocal :=
  ⟨sortScoreItems_perm l, sortScoreItems_pairwise l, by decide, by decide, by decide,
    by decide, by decide, by decide, by decide, by decide⟩

/-! ## Claim C2 -/

/-- C2: the materialization step of `importDocumentary` is never performed:
for every configuration, collaborator, field map and payload, the only effect
the function produces is printing the computed destination path (the
`importMKV` call after the print is commented out in the source). The second
conjunct evaluates the concrete local-name import of `"Wild China.mkv"`: the
destination is computed and printed, no move or remux happens, and the
function returns the leftover year-parse failure held by Go's named return
`err` (success is returned only on branches that reassign it). -/
theorem importDocumentary_never_materializes (config : Config)
    (collab : SeriesDetailCollab) (fileFields : FieldMap) (data : MediaData) :
    ((importDocumentary config collab fileFields data).1.all
        (fun e => !(e.isMaterialization))) = true
    ∧ importDocumentary sampleConfig emptyDetailCollab
        [("name", "Wild China"), ("ext", "mkv")] (.str "Wild China")
      = ([.println "/doc/Wild China.mkv"],
         some (.osErr "strconv.ParseUint: parsing : invalid syntax")) := by
  constructor
  · cases data with
    | series series =>
      simp only [importDocumentary]
      split
      · rfl
      · split
        · rfl
        · rfl
    | title title => rfl
    | str s =>
      simp only [importDocumentary]
      split
      · rfl
      · split
        · rfl
        · rfl
    | nilData => rfl
  · decide

/-! ## Claim C4 -/

/-- C4: materialization is idempotent. If the destination path already exists,
`importMKV` returns success with the filesystem unchanged and no effect
performed; consequently, whenever a first call succeeds, a second call on the
resulting filesystem (under any tool environment) is a success no-op, so the
side effect is performed at most once. -/
theorem importMKV_idempotent (config : Config) (env env2 : ToolEnv) (fs : List String)
    (path outPath : String) :
    (outPath ∈ fs → importMKV config env fs path outPath = ⟨fs, [], none⟩)
    ∧ ((importMKV config env fs path outPath).err = none →
        importMKV config env2 (importMKV config env fs path outPath).fs path outPath
          = ⟨(importMKV config env fs path outPath).fs, [], none⟩) := by
  have hexists : ∀ (envA : ToolEnv) (fsA : List String), outPath ∈ fsA →
      importMKV config envA fsA path outPath = ⟨fsA, [], none⟩ := by
    intro envA fsA hmem
    simp [importMKV, hmem]
  exact ⟨hexists env fs,
    fun h => hexists env2 _ (importMKV_ok_mem config env fs path outPath h)⟩

/-- C4 witness: with the destination already present, `importMKV` is a
success no-op on a concrete filesystem. -/
theorem importMKV_idempotent_witness :
    importMKV sampleConfig {} ["/tv/out.mkv"] "/in/src.mkv" "/tv/out.mkv"
      = ⟨["/tv/out.mkv"], [], none⟩ :=
  (importMKV_idempotent sampleConfig {} {} ["/tv/out.mkv"] "/in/src.mkv" "/tv/out.mkv").1
    (by decide)

/-! ## Claim C10 -/

/-- C10: when the merged candidate list is empty (automatic mode still picks
id 1), or when an accepted id is within the configured visible-result bound
but exceeds the merged list's length, the final indexing step of `Import`
panics (out-of-range slice index); it does not return an error value to the
caller. -/
theorem import_out_of_range_panics (absoluteOrder : List ScoreItem) (matchId : Int)
    (numVisibleResults : Nat) (dispatch : ScoreItem → Option GoError)
    (h : (absoluteOrder = [] ∧ matchId = 1) ∨
      (1 ≤ matchId ∧ matchId ≤ (numVisibleResults : Int) ∧
        absoluteOrder.length < matchId.toNat)) :
    importFinish absoluteOrder matchId dispatch = .panic
    ∧ ∀ e, importFinish absoluteOrder matchId dispatch ≠ .errReturn e := by
  have hsel : selectMatch absoluteOrder matchId = none := by
    rcases h with ⟨hord, hid⟩ | ⟨h1, h2, h3⟩
    · subst hord
      subst hid
      simp [selectMatch]
    · simp only [selectMatch, if_neg (by omega : ¬ matchId < 1)]
      rw [List.get?_eq_none]
      omega
  refine ⟨?_, ?_⟩
  · simp [importFinish, hsel]
  · intro e
    simp [importFinish, hsel]

/-- C10 witness: with an empty merged list and the automatic id 1, the final
step panics. -/
theorem import_out_of_range_panics_witness :
    importFinish [] 1 (fun _ => none) = .panic :=
  (import_out_of_range_panics [] 1 5 (fun _ => none) (Or.inl ⟨rfl, rfl⟩)).1

/-! ## Claim C5 -/

/-- C5 counterexample: with both tools failing on a non-matroska source and a
fresh destination, the error returned to the caller is exactly the secondary
tool's failure (`ffmpeg exited with error: ...`); the primary tool's captured
failure text (`"container not supported"`) appears nowhere in it, so the code
does not return the combined failure of both tools (the mkvmerge failure is
only printed). The filesystem is unchanged. -/
theorem remux_error_not_combined_counterexample :
    (importMKV sampleConfig failingToolEnv ["/in/video.avi"] "/in/video.avi"
        "/doc/Video.mkv").err
      = some (.msg "ffmpeg exited with error: muxing failed")
    ∧ ¬ ("container not supported".data <:+:
          "ffmpeg exited with error: muxing failed".data)
    ∧ (importMKV sampleConfig failingToolEnv ["/in/video.avi"] "/in/video.avi"
        "/doc/Video.mkv").fs
      = ["/in/video.avi"] := by
  decide

/-- C5 (amended): for a source without matroska container and a non-existing
destination, `importMKV` first runs mkvmerge; on its non-zero exit it prints
that failure and runs ffmpeg (with timestamp regeneration); and when both
fail it returns the SECONDARY tool's failure alone to the caller (the primary
tool's failure is only printed to the console), without modifying the
filesystem — in particular the source file is untouched and no output file
appears. -/
theorem remux_fallback_chain (config : Config) (env : ToolEnv) (fs : List String)
    (path outPath : String) (o1 o2 : String)
    (hsuf : hasMkvSuffix path = false)
    (hmem : outPath ∉ fs)
    (hmkdir : env.mkdirFail = none)
    (h1 : env.mkvmergeFail = some o1)
    (h2 : env.ffmpegFail = some o2) :
    importMKV config env fs path outPath =
      { fs := fs
        effects := [.mkdirAll (dirOf outPath), .runMKVMerge path outPath,
          .println (config.mkvmerge ++ " exited with error: " ++ trimSpace o1),
          .runFFMPEG path outPath,
          .println (config.ffmpeg ++ " exited with error: " ++ trimSpace o2)]
        err := some (.msg (config.ffmpeg ++ " exited with error: " ++ trimSpace o2)) } := by
  simp [importMKV, importMKVUsingMKVMerge, importMKVUsingFFMPEG, hmem, hmkdir, hsuf, h1, h2,
    GoError.render]

/-- C5 witness: the fallback chain evaluated on a concrete failing
environment. -/
theorem remux_fallback_chain_witness :
    importMKV sampleConfig failingToolEnv ["/in/video.avi"] "/in/video.avi" "/doc/Video.mkv"
      = { fs := ["/in/video.avi"]
          effects := [.mkdirAll "/doc", .runMKVMerge "/in/video.avi" "/doc/Video.mkv",
            .println "mkvmerge exited with error: container not supported",
            .runFFMPEG "/in/video.avi" "/doc/Video.mkv",
            .println "ffmpeg exited with error: muxing failed"]
          err := some (.msg "ffmpeg exited with error: muxing failed") } := by
  have h := remux_fallback_chain sampleConfig failingToolEnv ["/in/video.avi"]
    "/in/video.avi" "/doc/Video.mkv" "container not supported" "muxing failed"
    (by decide) (by decide) rfl rfl rfl
  rw [h]
  decide

/-! ## Claim C6 -/

/-- C6: the selection loop accepts exactly the numeric inputs in
`[1, NumVisibleResults]` (rejecting and reprompting on scan errors and
out-of-range ids), skips every rejected attempt, returns the first accepted
id, and the subsequent indexing step returns the entry at that 1-based
position of the FULL merged list. -/
theorem interactive_selection_full_list (numVisibleResults : Nat)
    (bad rest : List InputAttempt) (m : Int) (merged : List ScoreItem)
    (hbad : ∀ a ∈ bad, acceptsInput numVisibleResults a = none)
    (h1 : 1 ≤ m) (h2 : m ≤ (numVisibleResults : Int))
    (hlen : (m - 1).toNat < merged.length) :
    (∀ a n, acceptsInput numVisibleResults a = some n ↔
      a = .num n ∧ 1 ≤ n ∧ n ≤ (numVisibleResults : Int))
    ∧ selectionLoop numVisibleResults (bad ++ .num m :: rest) = some m
    ∧ selectMatch merged m = some (merged.get ⟨(m - 1).toNat, hlen⟩) := by
  refine ⟨?_, ?_, ?_⟩
  · intro a n
    cases a with
    | scanErr => simp [acceptsInput]
    | num k =>
      simp only [acceptsInput]
      by_cases hgt : k > (numVisibleResults : Int)
      · simp [hgt]
        omega
      · by_cases hlt : k < 1
        · simp [hgt, hlt]
          omega
        · simp [hgt, hlt]
          intro hkn
          subst hkn
          omega
  · rw [selectionLoop_skip _ bad _ hbad]
    have hacc : acceptsInput numVisibleResults (.num m) = some m := by
      simp [acceptsInput, show ¬ m > (numVisibleResults : Int) by omega,
        show ¬ m < 1 by omega]
    simp [selectionLoop, hacc]
  · simp only [selectMatch, if_neg (by omega : ¬ m < 1)]
    exact List.get?_eq_get hlen

/-- C6 witness: three rejected attempts (a scan error, an id above the bound,
an id below 1) are reprompted, the accepted id 2 selects the second entry of
the full merged list. -/
theorem interactive_selection_full_list_witness :
    selectionLoop 3 [.scanErr, .num 9, .num 0, .num 2] = some 2
    ∧ selectMatch [sampleItemA, sampleItemB] 2 = some sampleItemB := by
  have h := interactive_selection_full_list 3 [.scanErr, .num 9, .num 0] [] 2
    [sampleItemA, sampleItemB] (by decide) (by decide) (by decide) (by decide)
  refine ⟨by simpa using h.2.1, ?_⟩
  rw [h.2.2]
  decide

/-! ## Claim C9 -/

theorem parseUint_lt (s : String) (n : Nat) (h : parseUint s = some n) : n < 2 ^ 64 := by
  simp only [parseUint] at h
  split at h
  · rename_i hcond
    cases h
    exact hcond.2.2
  · exact Option.noConfusion h

/-- C9: whenever the season and episode fields of a TV classification parse,
any destination path `importTV` computes embeds them through the `%02d`
formatting (`.../Season SS/Name SSSEEE...`), and that formatting is a
lossless numeric round-trip: parsing the formatted string returns the parsed
value; concretely `1` prints as `"01"` and `1666` prints at natural width as
`"1666"`. -/
theorem tv_path_roundtrip (config : Config) (collab : SeriesDetailCollab)
    (fileFields : FieldMap) (data : MediaData) (s e : Nat) (p : String)
    (hs : parseUint (lookupField fileFields "season") = some s)
    (he : parseUint (lookupField fileFields "episode") = some e)
    (hp : importTVOutPath config collab fileFields data = .ok p) :
    (∃ seriesName episodeSegment,
      p = config.tvDir ++ "/" ++ seriesName ++ "/Season " ++ format02 s ++ "/" ++
          seriesName ++ " S" ++ format02 s ++ "E" ++ format02 e ++ episodeSegment ++ ".mkv")
    ∧ parseUint (format02 s) = some s
    ∧ parseUint (format02 e) = some e
    ∧ format02 1 = "01"
    ∧ format02 1666 = "1666" := by
  refine ⟨?_, parseUint_format02 s (parseUint_lt _ s hs),
    parseUint_format02 e (parseUint_lt _ e he), by decide, by decide⟩
  simp only [importTVOutPath, hs, he] at hp
  cases data with
  | nilData =>
    exact ⟨replaceSlash "", _, (Except.ok.inj hp).symm⟩
  | series ser =>
    cases hg : GetTVDBEpisodeName collab ser s e with
    | error err =>
      simp only [hg] at hp
      exact Except.noConfusion hp
    | ok en =>
      simp only [hg] at hp
      exact ⟨replaceSlash ser.SeriesName, _, (Except.ok.inj hp).symm⟩
  | title t =>
    exact ⟨replaceSlash "", _, (Except.ok.inj hp).symm⟩
  | str sn =>
    exact ⟨replaceSlash sn, _, (Except.ok.inj hp).symm⟩

/-- C9 witness: the concrete classification (season `"1"`, episode `"2"`,
bare local name `"show"`) produces `/tv/show/Season 01/show S01E02.mkv`, and
the formatting round-trips. -/
theorem tv_path_roundtrip_witness :
    parseUint (format02 1) = some 1 ∧ format02 1666 = "1666" := by
  have h := tv_path_roundtrip sampleConfig emptyDetailCollab
    [("name", "show"), ("season", "1"), ("episode", "2"), ("ext", "mkv")] (.str "show")
    1 2 "/tv/show/Season 01/show S01E02.mkv" (by decide) (by decide) rfl
  exact ⟨h.2.1, h.2.2.2.2⟩

/-! ## Claim C3 -/

theorem bne_true_eq (x : Bool) : (x != true) = !x := by cases x <;> rfl

theorem bne_false_eq (x : Bool) : (x != false) = x := by cases x <;> rfl

theorem filterTitle_entry_eq_some (newTitle : String → Option Title) (negate : Bool)
    (g : String) (t0 t : Title) :
    (match newTitle t0.ID with
      | none => none
      | some t1 =>
        if t1.Genres.any (fun mg => (strToLower g == strToLower mg) != negate)
        then some t1 else none) = some t
    ↔ newTitle t0.ID = some t ∧
        (t.Genres.any (fun mg => (strToLower g == strToLower mg) != negate)) = true := by
  cases h : newTitle t0.ID with
  | none => simp
  | some t1 =>
    by_cases hk : (t1.Genres.any fun mg => (strToLower g == strToLower mg) != negate) = true
    · simp only [hk, if_true]
      constructor
      · intro he
        obtain rfl : t1 = t := Option.some.inj he
        exact ⟨rfl, hk⟩
      · rintro ⟨he, _⟩
        exact he
    · simp only [Bool.not_eq_true] at hk
      simp only [hk, Bool.false_eq_true, if_false]
      constructor
      · intro he
        exact Option.noConfusion he
      · rintro ⟨he, hany⟩
        obtain rfl : t1 = t := Option.some.inj he
        rw [hk] at hany
        simp at hany

/-- C3 counterexample: under the negated filter `"!documentary"`, a series
whose genre set CONTAINS `"documentary"` (case-insensitively; genres
`["Documentary", "Drama"]`) is nevertheless kept by the series-path filter,
because the code keeps an entry as soon as ANY of its genres differs from the
filter remainder — refuting "keep exactly those whose genre set does NOT
contain the remainder". -/
theorem genre_negation_counterexample :
    filterSeriesByGenre "!documentary"
        [{ Id := 1, SeriesName := "Wild China", Genre := ["Documentary", "Drama"] }]
      = [{ Id := 1, SeriesName := "Wild China", Genre := ["Documentary", "Drama"] }]
    ∧ ["Documentary", "Drama"].any
        (fun g => strToLower g == strToLower "documentary") = true := by
  decide

/-- C3 (amended): for both lookup paths, a filter `"!" ++ rest` keeps exactly
the candidates with AT LEAST ONE genre differing (case-insensitively) from
`rest` — so a candidate whose genre set contains `rest` is still kept
whenever it carries another genre, and a zero-genre candidate is always
dropped; a non-negated, non-empty filter keeps exactly the candidates with at
least one genre equal to it (for the positive direction this coincides with
set containment, as claimed). In the title path each kept candidate is the
successfully fetched detail record of a search result. -/
theorem genre_filtering_characterization (rest gpos : String)
    (hpos1 : gpos ≠ "") (hpos2 : gpos.data.head? ≠ some '!')
    (newTitle : String → Option Title) (L : List Series) (M : List Title)
    (s : Series) (t : Title) :
    (s ∈ filterSeriesByGenre ("!" ++ rest) L ↔
      s ∈ L ∧ ∃ sg ∈ s.Genre, strToLower rest ≠ strToLower sg)
    ∧ (s ∈ filterSeriesByGenre gpos L ↔
      s ∈ L ∧ ∃ sg ∈ s.Genre, strToLower gpos = strToLower sg)
    ∧ (t ∈ filterTitlesByGenre newTitle ("!" ++ rest) M ↔
      ∃ t0 ∈ M, newTitle t0.ID = some t ∧ ∃ mg ∈ t.Genres, strToLower rest ≠ strToLower mg)
    ∧ (t ∈ filterTitlesByGenre newTitle gpos M ↔
      ∃ t0 ∈ M, newTitle t0.ID = some t ∧ ∃ mg ∈ t.Genres, strToLower gpos = strToLower mg) := by
  have hneg_ne : (("!" ++ rest) == "") = false := by
    rw [beq_eq_false_iff_ne]
    exact bang_append_ne_empty rest
  have hneg_head : (("!" ++ rest).data.head? == some '!') = true := by
    rw [bang_append_data]
    simp
  have hneg_tail : (⟨("!" ++ rest).data.tail⟩ : String) = rest := by
    rw [bang_append_data]
    rfl
  have hpos_ne : (gpos == "") = false := beq_eq_false_iff_ne.mpr hpos1
  have hpos_head : (gpos.data.head? == some '!') = false := beq_eq_false_iff_ne.mpr hpos2
  refine ⟨?_, ?_, ?_, ?_⟩
  · simp only [filterSeriesByGenre, hneg_ne, Bool.false_eq_true, if_false, hneg_head,
      if_true, hneg_tail, List.mem_filter, bne_true_eq, List.any_eq_true,
      Bool.not_eq_true', beq_eq_false_iff_ne, ne_eq]
  · simp only [filterSeriesByGenre, hpos_ne, Bool.false_eq_true, if_false, hpos_head,
      List.mem_filter, bne_false_eq, List.any_eq_true, beq_iff_eq]
  · simp only [filterTitlesByGenre, hneg_ne, Bool.false_eq_true, if_false, hneg_head,
      if_true, hneg_tail, List.mem_filterMap]
    simp only [filterTitle_entry_eq_some]
    simp only [bne_true_eq, List.any_eq_true, Bool.not_eq_true', beq_eq_false_iff_ne, ne_eq]
  · simp only [filterTitlesByGenre, hpos_ne, Bool.false_eq_true, if_false, hpos_head,
      List.mem_filterMap]
    simp only [filterTitle_entry_eq_some]
    simp only [bne_false_eq, List.any_eq_true, beq_iff_eq]

/-- C3 witness: the characterization applied to the concrete negated and
positive filters of the documentary path. -/
theorem genre_filtering_characterization_witness :
    ({ Id := 1, SeriesName := "Wild China", Genre := ["Documentary", "Drama"] } : Series)
      ∈ filterSeriesByGenre ("!" ++ "documentary")
          [{ Id := 1, SeriesName := "Wild China", Genre := ["Documentary", "Drama"] }] := by
  have h := (genre_filtering_characterization "documentary" "drama"
    (by decide) (by decide) (fun _ => none)
    [{ Id := 1, SeriesName := "Wild China", Genre := ["Documentary", "Drama"] }] []
    { Id := 1, SeriesName := "Wild China", Genre := ["Documentary", "Drama"] }
    tvSeriesTitleSample).1
  rw [h]
  refine ⟨by decide, "Drama", by decide, by decide⟩

/-! ## Claim C7 -/

/-- C7 counterexample: a documentary classification whose episode field
parses but whose season field is absent (so it does not parse as a number)
still triggers the remote documentary series-catalog query — refuting
"queried if and only if BOTH the season field and the episode field parse as
numbers". -/
theorem doc_tvdb_query_counterexample :
    documentaryTvdbQueried [("name", "blue planet"), ("episode", "2"), ("ext", "mkv")] = true
    ∧ parseUint
        (lookupField [("name", "blue planet"), ("episode", "2"), ("ext", "mkv")] "season")
      = none
    ∧ CatalogQuery.tvdbSeries "blue planet" "documentary" ∈
        importCatalogQueries none
          (some [("name", "blue planet"), ("episode", "2"), ("ext", "mkv")]) none := by
  decide

/-- C7 (amended): the remote documentary series catalog is queried if and
only if the EPISODE field of the documentary classification parses as a
number — the season field is not consulted (it silently defaults to 1
later); and when the episode field does not parse, the `DocumentaryTVDB`
source contributes no candidate to the merged ranking. -/
theorem doc_tvdb_query_iff (env : ImportEnv) (numVisibleResults : Nat)
    (tvShowFields movieFields : Option FieldMap) (f : FieldMap) :
    (CatalogQuery.tvdbSeries (lookupField f "name") "documentary" ∈
        importCatalogQueries tvShowFields (some f) movieFields ↔
      (parseUint (lookupField f "episode")).isSome = true)
    ∧ ((parseUint (lookupField f "episode")).isSome = false →
        ∀ it ∈ absoluteOrderOf env numVisibleResults tvShowFields (some f) movieFields,
          it.source ≠ .DocumentaryTVDB) := by
  constructor
  · have hne1 : ("" : String) ≠ "documentary" := by decide
    cases tvShowFields <;> cases movieFields <;>
      by_cases hq : (parseUint (lookupField f "episode")).isSome = true <;>
        simp_all [importCatalogQueries, documentaryTvdbQueried, hne1]
  · intro hq it hit hsrc
    have hqf : documentaryTvdbQueried f = false := hq
    simp only [absoluteOrderOf, hqf, Bool.false_eq_true, if_false, mem_sortScoreItems,
      List.mem_append] at hit
    rcases hit with ((((h | h) | h) | h) | h) | h
    · cases tvShowFields with
      | none => simp at h
      | some tf =>
        obtain ⟨x, _, rfl⟩ := List.mem_map.mp h
        simp at hsrc
    · cases tvShowFields with
      | none => simp at h
      | some tf =>
        obtain ⟨x, _, rfl⟩ := List.mem_map.mp h
        simp at hsrc
    · obtain ⟨x, _, rfl⟩ := List.mem_map.mp h
      simp at hsrc
    · simp at h
    · obtain ⟨x, _, rfl⟩ := List.mem_map.mp h
      simp at hsrc
    · cases movieFields with
      | none => simp at h
      | some mf =>
        obtain ⟨x, _, rfl⟩ := List.mem_map.mp h
        simp at hsrc

/-- C7 witness: a documentary classification without any episode field never
places the series-catalog query. -/
theorem doc_tvdb_query_iff_witness :
    CatalogQuery.tvdbSeries "some doco" "documentary" ∉
      importCatalogQueries none (some [("name", "some doco"), ("ext", "mkv")]) none := by
  intro hmem
  have h := (doc_tvdb_query_iff emptyImportEnv 5 none none
    [("name", "some doco"), ("ext", "mkv")]).1.mp hmem
  rw [show parseUint (lookupField [("name", "some doco"), ("ext", "mkv")] "episode") = none
    from by decide] at h
  simp at h

/-! ## Claim C8 -/

/-- C8 counterexample: the documentary caller of the title lookup does NOT
accept results of every type tag: a `"TV Series"`-typed search result
carrying the Documentary genre is discarded by the shared type filter before
genre filtering ever runs (the code result is empty), whereas the
spec-modelled documentary lookup (any type tag, genre-filtered later) keeps
it. -/
theorem title_lookup_type_counterexample :
    (detectIMDBMovie tvSeriesCollabSample [] "Wild China" "documentary").1 = []
    ∧ detectIMDBMovieDocSpec tvSeriesCollabSample "Wild China" "documentary"
      = [tvSeriesTitleSample] := by
  decide

/-- C8 (amended): the title lookup applies the type-tag filter (untyped,
`"Video"`, `"TV Movie"`) to BOTH callers — the documentary caller included —
and in both paths the search results are deduplicated by title identifier and
capped at 10; the movie caller (empty genre) returns that collection
unchanged, the documentary caller then genre-filters it via detail fetches
(which keeps the cap and, when the detail fetch preserves identifiers, the
deduplication). -/
theorem title_lookup_filter_dedup_cap (collab : IMDBCollab) (name genre : String)
    (hdetail : ∀ id t, collab.newTitle id = some t → t.ID = id) :
    (∀ t ∈ movieDedupCap (collab.searchTitle (joinWords (findWords name))) [] 0,
      movieTypeAllowed t.TitleType = true)
    ∧ ((movieDedupCap (collab.searchTitle (joinWords (findWords name))) [] 0).map
        (fun t => t.ID)).Nodup
    ∧ (movieDedupCap (collab.searchTitle (joinWords (findWords name))) [] 0).length ≤ 10
    ∧ (detectIMDBMovie collab [] name "").1
        = movieDedupCap (collab.searchTitle (joinWords (findWords name))) [] 0
    ∧ (detectIMDBMovie collab [] name genre).1
        = filterTitlesByGenre collab.newTitle genre
            (movieDedupCap (collab.searchTitle (joinWords (findWords name))) [] 0)
    ∧ (detectIMDBMovie collab [] name genre).1.length ≤ 10
    ∧ ((detectIMDBMovie collab [] name genre).1.map (fun t => t.ID)).Nodup := by
  have hcap : (movieDedupCap (collab.searchTitle (joinWords (findWords name))) [] 0).length
      ≤ 10 := by
    have := movieDedupCap_length (collab.searchTitle (joinWords (findWords name))) [] 0
      (by omega)
    omega
  have hplain : (detectIMDBMovie collab [] name "").1
      = movieDedupCap (collab.searchTitle (joinWords (findWords name))) [] 0 := by
    simp [detectIMDBMovie, filterTitlesByGenre]
  have hgen : (detectIMDBMovie collab [] name genre).1
      = filterTitlesByGenre collab.newTitle genre
          (movieDedupCap (collab.searchTitle (joinWords (findWords name))) [] 0) := by
    simp [detectIMDBMovie]
  refine ⟨movieDedupCap_type_allowed _ [] 0, (movieDedupCap_nodup _ [] 0).1, hcap,
    hplain, hgen, ?_, ?_⟩
  · rw [hgen]
    exact le_trans (filterTitlesByGenre_length _ _ _) hcap
  · rw [hgen]
    exact (filterTitlesByGenre_ids_sublist collab.newTitle genre _ hdetail).nodup
      (movieDedupCap_nodup _ [] 0).1

/-- C8 witness: the title-lookup facts evaluated at a concrete collaborator
whose detail fetch never succeeds. -/
theorem title_lookup_filter_dedup_cap_witness :
    (detectIMDBMovie emptyIMDBCollab [] "x" "").1 = []
    ∧ (detectIMDBMovie emptyIMDBCollab [] "x" "documentary").1.length ≤ 10 := by
  have h := title_lookup_filter_dedup_cap emptyIMDBCollab "x" "documentary"
    (fun id t hsome => Option.noConfusion hsome)
  refine ⟨?_, h.2.2.2.2.2.1⟩
  rw [h.2.2.2.1]
  decide

end Nasimport
